import Mathlib

/-!
Shallow embedding of the Agno-to-LiveKit adapter in
`livekit_plugins_agno/agno.py`: the chat-context extractor
(`AgnoStream._get_user_input`), the event translator (`_to_chat_chunk`),
the stream driver (`AgnoStream._run`), and the facade (`LLMAdapter`).
Python values flowing through the translator are modelled with explicit
truthiness and stringification; the wrapped agent is a function from run
arguments to an event stream that either finishes or raises.
-/

/-- A Python value as it flows through the translator: absent (`None`),
a string, or an arbitrary object carrying its own truthiness and its
`str()` rendering. -/
inductive PyVal where
  | none
  | str (s : String)
  | obj (truthy : Bool) (rend : String)
deriving DecidableEq

/-- Python truthiness: `None` is falsy, a string is truthy iff nonempty,
an object carries its own truthiness. -/
def py_truthy : PyVal → Bool
  | PyVal.none => false
  | PyVal.str s => s != ""
  | PyVal.obj t _ => t

/-- Python `str()` applied to a value. -/
def py_str : PyVal → String
  | PyVal.none => "None"
  | PyVal.str s => s
  | PyVal.obj _ r => r

/-- A run event produced by the wrapped agent: a `RunContentEvent`, a
terminal `RunOutput`, some other event exposing a `content` attribute, or
an event with no `content` attribute at all. -/
inductive AgnoEvent where
  | runContentEvent (content : PyVal)
  | runOutput (content : PyVal)
  | otherWithContent (content : PyVal)
  | otherEvent
deriving DecidableEq

/-- The role-and-delta payload of an output chunk (`llm.ChoiceDelta`). -/
structure ChoiceDelta where
  role : String
  content : PyVal
deriving DecidableEq

/-- An output chunk handed to the host framework (`llm.ChatChunk`). -/
structure ChatChunk where
  id : String
  delta : ChoiceDelta
deriving DecidableEq

/-- The event translator `_to_chat_chunk`: the `if`/`elif` chain assigns
`content` (verbatim for a `RunContentEvent`; stringified for a truthy
`RunOutput` content; stringified for any other truthy `content`
attribute), then emits a chunk iff the assigned content is truthy. -/
def to_chat_chunk (event : AgnoEvent) : Option ChatChunk :=
  let content : PyVal :=
    match event with
    | AgnoEvent.runContentEvent c => c
    | AgnoEvent.runOutput c =>
      if py_truthy c then
        match c with
        | PyVal.str s => PyVal.str s
        | v => PyVal.str (py_str v)
      else PyVal.none
    | AgnoEvent.otherWithContent c =>
      if py_truthy c then PyVal.str (py_str c) else PyVal.none
    | AgnoEvent.otherEvent => PyVal.none
  if py_truthy content then
    some ⟨"agno", ⟨"assistant", content⟩⟩
  else Option.none

/-- Roles of chat messages (`ChatRole`). -/
inductive ChatRole where
  | system
  | user
  | assistant
  | developer
deriving DecidableEq

/-- One part of a multimodal content list: a dict (whose `"text"` key may
be present or absent) or a non-dict value with its `str()` rendering. -/
inductive ContentPart where
  | dict (text : Option String)
  | nonDict (rend : String)
deriving DecidableEq

/-- Message content as the host framework supplies it: a plain string or
a list of parts. -/
inductive MessageContent where
  | str (s : String)
  | list (parts : List ContentPart)
deriving DecidableEq

/-- A role-tagged chat message (`llm.ChatMessage`). -/
structure ChatMessage where
  role : ChatRole
  content : MessageContent
deriving DecidableEq

/-- Text extracted from one part: `p.get("text", "")` for a dict,
`str(p)` otherwise. -/
def part_text : ContentPart → String
  | ContentPart.dict t => t.getD ""
  | ContentPart.nonDict r => r

/-- Text extracted from a message content: the string itself, or the
parts joined with single spaces. -/
def content_text : MessageContent → String
  | MessageContent.str s => s
  | MessageContent.list ps => String.intercalate " " (ps.map part_text)

/-- The backward scan of `_get_user_input`, over an already-reversed
message list. -/
def get_user_input_go : List ChatMessage → Option String
  | [] => Option.none
  | msg :: rest =>
    if msg.role = ChatRole.user then some (content_text msg.content)
    else get_user_input_go rest

/-- `AgnoStream._get_user_input`: iterate `reversed(messages)` and return
the extracted text of the first user message, or `None`. -/
def get_user_input (messages : List ChatMessage) : Option String :=
  get_user_input_go messages.reverse

/-- A host-framework tool, opaque to the adapter. -/
structure Tool where
  name : String
deriving DecidableEq

/-- Connection options, passed through opaquely. -/
structure APIConnectOptions where
  max_retry : Nat
  retry_interval_ms : Nat
  timeout_ms : Nat
deriving DecidableEq

/-- A tool-choice knob, opaque to the adapter. -/
abbrev ToolChoice := String

/-- The arguments the driver passes to `Agent.arun`. -/
structure RunArgs where
  input : String
  stream : Bool
  session_id : Option String
  user_id : Option String
deriving DecidableEq

/-- How a wrapped-agent event stream terminates: normally, or by raising
an exception (identified by a label). -/
inductive StreamTail where
  | done
  | raise (exc : String)
deriving DecidableEq

/-- A wrapped-agent event stream: the events yielded before termination,
and how it terminates. -/
structure EventStream where
  events : List AgnoEvent
  tail : StreamTail
deriving DecidableEq

/-- The wrapped agent model configuration, exposing its identifier. -/
structure AgnoModel where
  id : String
deriving DecidableEq

/-- The wrapped Agno agent: an optional configured model and its
asynchronous streaming run, modelled as a function from run arguments to
the event stream it produces. -/
structure Agent where
  model : Option AgnoModel
  arun : RunArgs → EventStream

/-- The adapter facade (`LLMAdapter`): per-instance configuration set at
construction. -/
structure LLMAdapter where
  agent : Agent
  session_id : Option String
  user_id : Option String

/-- `LLMAdapter.model`: the wrapped agent's model identifier, or the
fallback label `"agno"` when no model is configured. -/
def LLMAdapter.model (self : LLMAdapter) : String :=
  match self.agent.model with
  | some m => m.id
  | Option.none => "agno"

/-- `LLMAdapter.provider`: the constant provider label. -/
def LLMAdapter.provider (_self : LLMAdapter) : String :=
  "agno"

/-- The stream driver (`AgnoStream`): the state captured at construction
by `AgnoStream.__init__`. -/
structure AgnoStream where
  chat_ctx : List ChatMessage
  tools : List Tool
  conn_options : APIConnectOptions
  agent : Agent
  session_id : Option String
  user_id : Option String

/-- `LLMAdapter.chat`: constructs a new stream driver for one turn,
defaulting the tool list to `[]` and forwarding the construction-time
configuration. -/
def LLMAdapter.chat (self : LLMAdapter) (chat_ctx : List ChatMessage)
    (tools : Option (List Tool)) (conn_options : APIConnectOptions)
    (_parallel_tool_calls : Option Bool) (_tool_choice : Option ToolChoice)
    (_extra_kwargs : Option (List (String × String))) : AgnoStream :=
  { chat_ctx := chat_ctx
    tools := tools.getD []
    conn_options := conn_options
    agent := self.agent
    session_id := self.session_id
    user_id := self.user_id }

/-- How a driver run terminates: normal completion, or failure with the
exception propagated from the wrapped agent's stream. -/
inductive RunResult where
  | completed
  | failed (exc : String)
deriving DecidableEq

/-- The observable outcome of one driver run: the `Agent.arun` invocation
(if any) with the exact arguments passed, the chunks sent to the output
channel in order, and how the run terminated. -/
structure RunOutcome where
  arun_call : Option RunArgs
  chunks : List ChatChunk
  result : RunResult
deriving DecidableEq

/-- The event-forwarding loop of `AgnoStream._run`: translate each event
in order and send every non-`None` chunk. -/
def forward_events (events : List AgnoEvent) : List ChatChunk :=
  events.filterMap to_chat_chunk

/-- `AgnoStream._run`: extract the user input (returning immediately when
it is `None` or empty, since `not user_input` is true for both), invoke
`Agent.arun` with streaming enabled and the configured session and user
identifiers, and forward each translated chunk in arrival order; an
exception raised by the stream terminates the run with that exception. -/
def AgnoStream.run (self : AgnoStream) : RunOutcome :=
  match get_user_input self.chat_ctx with
  | Option.none => ⟨Option.none, [], RunResult.completed⟩
  | some user_input =>
    if user_input = "" then ⟨Option.none, [], RunResult.completed⟩
    else
      let args : RunArgs := ⟨user_input, true, self.session_id, self.user_id⟩
      let response_stream := self.agent.arun args
      ⟨some args, forward_events response_stream.events,
        match response_stream.tail with
        | StreamTail.done => RunResult.completed
        | StreamTail.raise e => RunResult.failed e⟩

/-- Claim C1: the translator resolves renderable text by priority — a
content-increment event contributes its content verbatim; a terminal
run-output event with truthy content contributes that content
stringified; any other event with a truthy `content` attribute
contributes it stringified; when none applies or the resolved text is
empty the translator returns absence, and otherwise it returns a chunk
with the fixed identifier `"agno"`, role `"assistant"`, and the resolved
text as the delta. -/
theorem to_chat_chunk_priority :
    (∀ c, to_chat_chunk (AgnoEvent.runContentEvent c) =
      if py_truthy c then some ⟨"agno", ⟨"assistant", c⟩⟩ else Option.none) ∧
    (∀ c, to_chat_chunk (AgnoEvent.runOutput c) =
      if py_truthy c && py_str c != "" then
        some ⟨"agno", ⟨"assistant", PyVal.str (py_str c)⟩⟩
      else Option.none) ∧
    (∀ c, to_chat_chunk (AgnoEvent.otherWithContent c) =
      if py_truthy c && py_str c != "" then
        some ⟨"agno", ⟨"assistant", PyVal.str (py_str c)⟩⟩
      else Option.none) ∧
    to_chat_chunk AgnoEvent.otherEvent = Option.none := by
  refine ⟨fun c => ?_, fun c => ?_, fun c => ?_, rfl⟩ <;>
    cases c <;> simp [to_chat_chunk, py_truthy, py_str] <;>
    split <;> simp_all

/-- The backward scan equals `find?` over the scanned list, mapped
through the content-text extraction. -/
theorem get_user_input_go_eq_find (l : List ChatMessage) :
    get_user_input_go l =
      (l.find? fun m => decide (m.role = ChatRole.user)).map
        fun m => content_text m.content := by
  induction l with
  | nil => rfl
  | cons m rest ih =>
    by_cases h : m.role = ChatRole.user <;>
      simp [get_user_input_go, List.find?_cons, h, ih]

/-- Claim C2: the extractor scans from the most recent message backward
and returns the extracted text of the first message whose role is
`user`; when no user-role message exists, `find?` on the reversed list
is `none` and so is the extractor's result. -/
theorem get_user_input_last_user (messages : List ChatMessage) :
    get_user_input messages =
      (messages.reverse.find? fun m => decide (m.role = ChatRole.user)).map
        fun m => content_text m.content :=
  get_user_input_go_eq_find messages.reverse

/-- Claim C3: when the most recent user message's content is a list of
parts, the extractor returns the parts joined with single spaces, taking
a dict part's `"text"` entry and any other part's stringification; in
particular parts `[{"text": "A"}, {"text": "B"}, "C"]` yield `"A B C"`. -/
theorem get_user_input_list_parts (pre : List ChatMessage)
    (parts : List ContentPart) :
    get_user_input (pre ++ [⟨ChatRole.user, MessageContent.list parts⟩]) =
      some (String.intercalate " " (parts.map part_text)) ∧
    get_user_input [⟨ChatRole.user, MessageContent.list
        [ContentPart.dict (some "A"), ContentPart.dict (some "B"),
         ContentPart.nonDict "C"]⟩] = some "A B C" := by
  constructor
  · show get_user_input_go (pre ++ [_] : List ChatMessage).reverse = _
    rw [List.reverse_append]
    simp [get_user_input_go, content_text]
  · rfl

/-- The length of a `filterMap` counts the inputs mapped to `some`. -/
theorem length_filterMap_eq_countP {α β : Type} (f : α → Option β)
    (l : List α) :
    (l.filterMap f).length = l.countP fun a => (f a).isSome := by
  induction l with
  | nil => rfl
  | cons a l ih =>
    cases h : f a <;> simp [List.filterMap_cons, List.countP_cons, h, ih]

/-- Claim C4: when a nonempty user input is extracted, the driver emits
exactly the translations of the events the stream yields, in the
stream's order with no reordering or coalescing — the chunk list is the
`filterMap` of the translator over the event list, and its length counts
the events whose translation is present. -/
theorem driver_emission_order (agent : Agent) (sid uid : Option String)
    (ctx : List ChatMessage) (tools : List Tool) (co : APIConnectOptions)
    (input : String) (h : get_user_input ctx = some input)
    (hne : input ≠ "") :
    (AgnoStream.mk ctx tools co agent sid uid).run.chunks =
      (agent.arun ⟨input, true, sid, uid⟩).events.filterMap to_chat_chunk ∧
    (AgnoStream.mk ctx tools co agent sid uid).run.chunks.length =
      (agent.arun ⟨input, true, sid, uid⟩).events.countP
        (fun e => (to_chat_chunk e).isSome) := by
  unfold AgnoStream.run
  rw [show (AgnoStream.mk ctx tools co agent sid uid).chat_ctx = ctx from rfl, h]
  simp [hne, forward_events, length_filterMap_eq_countP]

/-- The connection options used by the example instantiations. -/
def demo_co : APIConnectOptions :=
  ⟨3, 100, 1000⟩

/-- A chat context whose single message is a user question. -/
def demo_ctx : List ChatMessage :=
  [⟨ChatRole.user, MessageContent.str "What time is it"⟩]

/-- The simulated event stream of spec section 8.4: content events with
texts `"Hi"`, `""`, `" there"`. -/
def demo_events : List AgnoEvent :=
  [AgnoEvent.runContentEvent (PyVal.str "Hi"),
   AgnoEvent.runContentEvent (PyVal.str ""),
   AgnoEvent.runContentEvent (PyVal.str " there")]

/-- A stub agent that yields `demo_events` and finishes normally. -/
def demo_agent : Agent :=
  ⟨some ⟨"gpt-4o-mini"⟩, fun _ => ⟨demo_events, StreamTail.done⟩⟩

/-- Witness for C4: on the stub stream yielding `"Hi"`, `""`, `" there"`
the driver emits exactly the two chunks `"Hi"` and `" there"`, in
order. -/
theorem driver_emission_order_witness :
    get_user_input demo_ctx = some "What time is it" ∧
    "What time is it" ≠ "" ∧
    (AgnoStream.mk demo_ctx [] demo_co demo_agent Option.none
        Option.none).run.chunks =
      [⟨"agno", ⟨"assistant", PyVal.str "Hi"⟩⟩,
       ⟨"agno", ⟨"assistant", PyVal.str " there"⟩⟩] := by
  refine ⟨rfl, by decide, ?_⟩
  rw [(driver_emission_order demo_agent Option.none Option.none demo_ctx []
    demo_co "What time is it" rfl (by decide)).1]
  rfl

/-- Claim C5: when the stream raises mid-run, the driver's run fails with
that same exception, unmodified, and the chunks emitted are exactly the
translations of the events yielded before the failure — nothing after
the failure point, nothing before it suppressed. -/
theorem driver_error_propagation (agent : Agent) (sid uid : Option String)
    (ctx : List ChatMessage) (tools : List Tool) (co : APIConnectOptions)
    (input : String) (e : String) (h : get_user_input ctx = some input)
    (hne : input ≠ "")
    (he : (agent.arun ⟨input, true, sid, uid⟩).tail = StreamTail.raise e) :
    (AgnoStream.mk ctx tools co agent sid uid).run.result =
      RunResult.failed e ∧
    (AgnoStream.mk ctx tools co agent sid uid).run.chunks =
      (agent.arun ⟨input, true, sid, uid⟩).events.filterMap to_chat_chunk := by
  unfold AgnoStream.run
  rw [show (AgnoStream.mk ctx tools co agent sid uid).chat_ctx = ctx from rfl, h]
  simp [hne, forward_events, he]

/-- A stub agent that yields one content event and then raises. -/
def demo_fail_agent : Agent :=
  ⟨Option.none,
   fun _ => ⟨[AgnoEvent.runContentEvent (PyVal.str "Hi")],
     StreamTail.raise "boom"⟩⟩

/-- Witness for C5: the stub raising `"boom"` after one `"Hi"` event
leaves the driver failed with `"boom"` having emitted the single `"Hi"`
chunk. -/
theorem driver_error_propagation_witness :
    get_user_input demo_ctx = some "What time is it" ∧
    "What time is it" ≠ "" ∧
    (demo_fail_agent.arun
        ⟨"What time is it", true, Option.none, Option.none⟩).tail =
      StreamTail.raise "boom" ∧
    (AgnoStream.mk demo_ctx [] demo_co demo_fail_agent Option.none
        Option.none).run.result = RunResult.failed "boom" ∧
    (AgnoStream.mk demo_ctx [] demo_co demo_fail_agent Option.none
        Option.none).run.chunks =
      [⟨"agno", ⟨"assistant", PyVal.str "Hi"⟩⟩] := by
  have h := driver_error_propagation demo_fail_agent Option.none Option.none
    demo_ctx [] demo_co "What time is it" "boom" rfl (by decide) rfl
  exact ⟨rfl, by decide, rfl, h.1, by rw [h.2]; decide⟩

/-- Claim C6: when the chat context holds no user-role message, the run
terminates normally with zero chunks and `Agent.arun` is never
invoked. -/
theorem driver_no_user_message (s : AgnoStream)
    (h : get_user_input s.chat_ctx = Option.none) :
    s.run = ⟨Option.none, [], RunResult.completed⟩ := by
  unfold AgnoStream.run
  rw [h]

/-- A chat context with only an assistant message. -/
def demo_assistant_ctx : List ChatMessage :=
  [⟨ChatRole.assistant, MessageContent.str "Hello"⟩]

/-- Witness for C6: on a context with only an assistant message, the run
completes with no `arun` call and no chunks. -/
theorem driver_no_user_message_witness :
    get_user_input demo_assistant_ctx = Option.none ∧
    (AgnoStream.mk demo_assistant_ctx [] demo_co demo_agent Option.none
        Option.none).run = ⟨Option.none, [], RunResult.completed⟩ :=
  ⟨rfl, driver_no_user_message _ rfl⟩

/-- Claim C7: two chat calls that differ only in the tool list,
tool-choice, parallel-tool-calls, or extra-kwargs arguments produce
identical run outcomes — the same `Agent.arun` invocation arguments, the
same chunk sequence, and the same termination — because none of those
inputs is forwarded to the wrapped agent. -/
theorem chat_ignores_tool_knobs (a : LLMAdapter) (ctx : List ChatMessage)
    (co : APIConnectOptions) (t₁ t₂ : Option (List Tool))
    (p₁ p₂ : Option Bool) (tc₁ tc₂ : Option ToolChoice)
    (ek₁ ek₂ : Option (List (String × String))) :
    (a.chat ctx t₁ co p₁ tc₁ ek₁).run = (a.chat ctx t₂ co p₂ tc₂ ek₂).run :=
  rfl

/-- Claim C8: the facade's `model` property returns the wrapped agent's
configured model identifier when one is configured and the fallback
label `"agno"` otherwise, and `provider` always returns `"agno"`. -/
theorem facade_model_provider (a : LLMAdapter) :
    (∀ m, a.agent.model = some m → a.model = m.id) ∧
    (a.agent.model = Option.none → a.model = "agno") ∧
    a.provider = "agno" := by
  refine ⟨fun m hm => ?_, fun hm => ?_, rfl⟩ <;>
    simp [LLMAdapter.model, hm]

/-- An adapter wrapping the stub agent, with session and user ids. -/
def demo_adapter : LLMAdapter :=
  ⟨demo_agent, some "room-1", some "user-1"⟩

/-- An adapter wrapping an agent with no configured model. -/
def demo_bare_adapter : LLMAdapter :=
  ⟨⟨Option.none, fun _ => ⟨[], StreamTail.done⟩⟩, Option.none, Option.none⟩

/-- Witness for C8: the stub adapter reports `"gpt-4o-mini"`, the
model-less adapter reports the fallback `"agno"`, and both report
provider `"agno"`. -/
theorem facade_model_provider_witness :
    demo_adapter.model = "gpt-4o-mini" ∧
    demo_bare_adapter.model = "agno" ∧
    demo_adapter.provider = "agno" :=
  ⟨(facade_model_provider demo_adapter).1 ⟨"gpt-4o-mini"⟩ rfl,
   (facade_model_provider demo_bare_adapter).2.1 rfl,
   (facade_model_provider demo_adapter).2.2⟩

/-- Claim C9: every chat call returns a fresh stream driver that is a
pure function of the call's own arguments and the configuration fixed at
construction — the wrapped agent reference and the session and user
identifiers are forwarded unchanged, and nothing else flows in; the
facade itself, being a plain value, is left untouched by `model`,
`provider`, and `chat`. -/
theorem chat_fresh_stream (a : LLMAdapter) (ctx : List ChatMessage)
    (t : Option (List Tool)) (co : APIConnectOptions) (p : Option Bool)
    (tc : Option ToolChoice) (ek : Option (List (String × String))) :
    a.chat ctx t co p tc ek =
      ⟨ctx, t.getD [], co, a.agent, a.session_id, a.user_id⟩ :=
  rfl

/-- Claim C10: when a most-recent user message exists but its extracted
text is the empty string, `not user_input` is true and the run
terminates exactly as in the no-user-message case: zero chunks, no
`Agent.arun` invocation, normal completion. -/
theorem driver_empty_input (s : AgnoStream)
    (h : get_user_input s.chat_ctx = some "") :
    s.run = ⟨Option.none, [], RunResult.completed⟩ := by
  unfold AgnoStream.run
  rw [h]
  rfl

/-- A chat context whose user message carries an empty list of parts,
which joins to the empty string. -/
def demo_empty_ctx : List ChatMessage :=
  [⟨ChatRole.user, MessageContent.list []⟩]

/-- Witness for C10: a user message whose part list joins to `""` makes
the run complete with no `arun` call and no chunks. -/
theorem driver_empty_input_witness :
    get_user_input demo_empty_ctx = some "" ∧
    (AgnoStream.mk demo_empty_ctx [] demo_co demo_agent Option.none
        Option.none).run = ⟨Option.none, [], RunResult.completed⟩ :=
  ⟨rfl, driver_empty_input _ rfl⟩
